import Mathlib

/-!
Verification of the receive-path fault classification engine of s2n-quic
(`dc/s2n-quic-dc/src/stream/recv/error.rs`) together with the crypto suite
registry (`quic/s2n-quic-crypto/src/lib.rs`).

The Rust enums and their pure conversion and policy functions are shallowly
embedded as Lean inductives and functions.  Payload values that the code only
moves around (stream identifiers, sequence numbers, replay gaps, application
error codes) are modelled as `Nat` / `Option Nat`; no arithmetic is performed
on them by the embedded code, so machine-width overflow is irrelevant.
-/

namespace S2nQuic

/-- Modelled from the spec: `TransportFeatures` (declared in `s2n-quic-dc`
outside `src/`) is an immutable connection-lifetime descriptor; the receive
path consults the single predicate `is_stream()`, "is this transport reliable,
ordered, byte-stream-shaped?".  It is modelled by that one boolean. -/
structure TransportFeatures where
  is_stream : Bool
  deriving DecidableEq

namespace Decrypt

/-- `crypto::decrypt::Error` (the spec's `ReplaySignal`).  Its variant set is
forced by the exhaustive (wildcard-free) match in
`impl From<decrypt::Error> for Error`: `ReplayDefinitelyDetected`,
`ReplayPotentiallyDetected { gap: Option<u64> }`, and `InvalidTag`. -/
inductive Error where
  | ReplayDefinitelyDetected
  | ReplayPotentiallyDetected (gap : Option Nat)
  | InvalidTag
  deriving DecidableEq

end Decrypt

/-- The fault taxonomy `stream::recv::Error` of
`dc/s2n-quic-dc/src/stream/recv/error.rs`, one constructor per Rust variant,
with payloads (`stream::Id`, `u64` sequence numbers, `Option<u64>` gap,
`application::Error` code) modelled as `Nat` / `Option Nat`. -/
inductive Error where
  | Decode
  | Decrypt
  | Duplicate
  | StreamMismatch (expected actual : Nat)
  | OutOfOrder (expected actual : Nat)
  | MaxDataExceeded
  | InvalidFin
  | OutOfRange
  | UnexpectedRetransmission
  | TruncatedTransport
  | IdleTimeout
  | KeyReplayPrevented
  | KeyReplayMaybePrevented (gap : Option Nat)
  | ApplicationError (error : Nat)
  deriving DecidableEq

/-- `impl From<decrypt::Error> for Error` (error.rs lines 44-54). -/
def Error.ofDecrypt : Decrypt.Error → Error
  | .ReplayDefinitelyDetected => .KeyReplayPrevented
  | .ReplayPotentiallyDetected gap => .KeyReplayMaybePrevented gap
  | .InvalidTag => .Decrypt

/-- `Error::is_fatal` (error.rs lines 58-69): if the transport is a stream
then any error we encounter is fatal; otherwise the negation of
`matches!(self, Decode | Decrypt | Duplicate | StreamMismatch { .. })`. -/
def Error.is_fatal (self : Error) (features : TransportFeatures) : Bool :=
  if features.is_stream then
    true
  else
    !(match self with
      | .Decode | .Decrypt | .Duplicate | .StreamMismatch _ _ => true
      | _ => false)

/-- Modelled from the spec: the transport error code classes of
`s2n_quic_core::transport::Error` used by `connection_close` (the constant
declarations live outside `src/`); they are distinct code categories. -/
inductive TransportErrorCode where
  | PROTOCOL_VIOLATION
  | FLOW_CONTROL_ERROR
  | FINAL_SIZE_ERROR
  | STREAM_STATE_ERROR
  | STREAM_LIMIT_ERROR
  deriving DecidableEq

/-- The content of a `frame::ConnectionClose<'static>` as produced by
`Error::connection_close`: either a transport error code class
(`transport::Error::X.into()`) or an application error code carried unchanged
(`(*error).into()`). -/
inductive ConnectionClose where
  | transport (code : TransportErrorCode)
  | application (code : Nat)
  deriving DecidableEq

/-- `Error::connection_close` (error.rs lines 72-95). -/
def Error.connection_close (self : Error) : Option ConnectionClose :=
  match self with
  | .Decode | .Decrypt | .Duplicate | .StreamMismatch _ _
  | .UnexpectedRetransmission =>
      some (.transport .PROTOCOL_VIOLATION)
  | .IdleTimeout => none
  | .MaxDataExceeded => some (.transport .FLOW_CONTROL_ERROR)
  | .InvalidFin | .TruncatedTransport => some (.transport .FINAL_SIZE_ERROR)
  | .OutOfOrder _ _ => some (.transport .STREAM_STATE_ERROR)
  | .OutOfRange => some (.transport .STREAM_LIMIT_ERROR)
  | .KeyReplayPrevented | .KeyReplayMaybePrevented _ => none
  | .ApplicationError error => some (.application error)

namespace Buffer

/-- `s2n_quic_core::buffer::Error<R>`.  Its variant set is forced by the
exhaustive (wildcard-free) match in `impl From<buffer::Error<Error>> for
Error`: `OutOfRange`, `InvalidFin`, `ReaderError(R)`. -/
inductive Error (R : Type) where
  | OutOfRange
  | InvalidFin
  | ReaderError (e : R)
  deriving DecidableEq

end Buffer

/-- `impl From<buffer::Error<Error>> for Error` (error.rs lines 98-107). -/
def Error.ofBuffer : Buffer.Error Error → Error
  | .OutOfRange => .OutOfRange
  | .InvalidFin => .InvalidFin
  | .ReaderError e => e

/-- `std::io::ErrorKind`, covering the six categories produced by the adapter
together with the other standard categories, so that totality of the mapping
(never an unmapped category) is a meaningful statement. -/
inductive ErrorKind where
  | NotFound
  | PermissionDenied
  | ConnectionRefused
  | ConnectionReset
  | ConnectionAborted
  | NotConnected
  | BrokenPipe
  | InvalidInput
  | InvalidData
  | TimedOut
  | WriteZero
  | Interrupted
  | Unsupported
  | UnexpectedEof
  | OutOfMemory
  | WouldBlock
  | Other
  deriving DecidableEq

/-- `impl From<Error> for std::io::ErrorKind` (error.rs lines 116-137). -/
def Error.errorKind : Error → ErrorKind
  | .Decode => .InvalidData
  | .Decrypt => .InvalidData
  | .Duplicate => .InvalidData
  | .StreamMismatch _ _ => .InvalidData
  | .MaxDataExceeded => .ConnectionAborted
  | .InvalidFin => .InvalidData
  | .TruncatedTransport => .UnexpectedEof
  | .OutOfRange => .ConnectionAborted
  | .OutOfOrder _ _ => .InvalidData
  | .UnexpectedRetransmission => .InvalidData
  | .IdleTimeout => .TimedOut
  | .KeyReplayPrevented => .PermissionDenied
  | .KeyReplayMaybePrevented _ => .PermissionDenied
  | .ApplicationError _ => .ConnectionReset

/-- The observable content of a `std::io::Error` built by the adapter: a
category kind plus an optional wrapped cause payload. -/
structure IoError where
  kind : ErrorKind
  cause : Option Error
  deriving DecidableEq

/-- `impl From<Error> for std::io::Error` (error.rs lines 109-114):
`io::Error::new(error.into(), error)` stores the coarse kind together with the
original fault as the boxed cause. -/
def Error.intoIoError (e : Error) : IoError :=
  { kind := e.errorKind, cause := some e }

/-- Modelled from the spec: extracting the wrapped cause of a generic error
object (`std::io::Error::get_ref` plus downcast, which live in the Rust
standard library, outside `src/`) returns the stored cause payload. -/
def IoError.getCause (e : IoError) : Option Error :=
  e.cause

namespace Crypto

/-- `EncryptionLevel`: ordered enumeration of the protocol encryption epochs. -/
inductive EncryptionLevel where
  | Initial
  | Handshake
  | ZeroRtt
  | OneRtt
  | Retry
  deriving DecidableEq

/-- Tags for the nine concrete key types bound by
`impl s2n_quic_core::crypto::CryptoSuite for Suite`
(`quic/s2n-quic-crypto/src/lib.rs` lines 36-46).  The Rust types live in
distinct modules (`initial`, `handshake`, `zero_rtt`, `one_rtt`, `retry`)
outside `src/`, so each tag stands for a distinct concrete type. -/
inductive KeyType where
  | InitialKey
  | InitialHeaderKey
  | HandshakeKey
  | HandshakeHeaderKey
  | ZeroRttKey
  | ZeroRttHeaderKey
  | OneRttKey
  | OneRttHeaderKey
  | RetryKey
  deriving DecidableEq

/-- `pub struct Suite;` — a zero-field unit struct carrying no runtime state. -/
structure Suite

/-- The body-key (bulk AEAD key) type bound to each encryption level by the
`CryptoSuite` impl: `InitialKey`, `HandshakeKey`, `ZeroRttKey`, `OneRttKey`,
`RetryKey`. -/
def Suite.keyFor : EncryptionLevel → KeyType
  | .Initial => .InitialKey
  | .Handshake => .HandshakeKey
  | .ZeroRtt => .ZeroRttKey
  | .OneRtt => .OneRttKey
  | .Retry => .RetryKey

/-- The header-protection key type bound to each encryption level by the
`CryptoSuite` impl: `InitialHeaderKey`, `HandshakeHeaderKey`,
`ZeroRttHeaderKey`, `OneRttHeaderKey`; the impl binds no retry header key. -/
def Suite.headerKeyFor : EncryptionLevel → Option KeyType
  | .Initial => some .InitialHeaderKey
  | .Handshake => some .HandshakeHeaderKey
  | .ZeroRtt => some .ZeroRttHeaderKey
  | .OneRtt => some .OneRttHeaderKey
  | .Retry => none

/-- All five encryption levels. -/
def EncryptionLevel.all : List EncryptionLevel :=
  [.Initial, .Handshake, .ZeroRtt, .OneRtt, .Retry]

end Crypto

end S2nQuic

namespace S2nQuic

/-- Claim C1: for every Fault variant (with any payload values) and every
TransportFeatures value for which `is_stream()` is true, `is_fatal` returns
true. -/
theorem is_fatal_on_stream (e : Error) (f : TransportFeatures)
    (h : f.is_stream = true) : e.is_fatal f = true := by
  simp [Error.is_fatal, h]

/-- Witness for C1: at Fault `Decode` and a stream-shaped transport. -/
theorem is_fatal_on_stream_witness :
    (TransportFeatures.mk true).is_stream = true ∧
      Error.Decode.is_fatal (TransportFeatures.mk true) = true :=
  ⟨rfl, is_fatal_on_stream Error.Decode (TransportFeatures.mk true) rfl⟩

/-- Claim C2: for every TransportFeatures value with `is_stream()` false,
`is_fatal` returns false exactly for `Decode`, `Decrypt`, `Duplicate`, and
`StreamMismatch` (any payload), and true for every other variant. -/
theorem is_fatal_on_datagram (e : Error) (f : TransportFeatures)
    (h : f.is_stream = false) :
    e.is_fatal f = false ↔
      (e = .Decode ∨ e = .Decrypt ∨ e = .Duplicate ∨
        ∃ a b, e = .StreamMismatch a b) := by
  cases e <;> simp [Error.is_fatal, h]

/-- Witness for C2: at Fault `IdleTimeout` and a datagram-shaped transport. -/
theorem is_fatal_on_datagram_witness :
    Error.IdleTimeout.is_fatal (TransportFeatures.mk false) = false ↔
      (Error.IdleTimeout = .Decode ∨ Error.IdleTimeout = .Decrypt ∨
        Error.IdleTimeout = .Duplicate ∨
        ∃ a b, Error.IdleTimeout = .StreamMismatch a b) :=
  is_fatal_on_datagram Error.IdleTimeout (TransportFeatures.mk false) rfl

/-- Claim C3: `connection_close` yields no closure signal exactly on
`IdleTimeout`, `KeyReplayPrevented`, and `KeyReplayMaybePrevented` with any
gap value (present or absent). -/
theorem connection_close_none_iff (e : Error) :
    e.connection_close = none ↔
      (e = .IdleTimeout ∨ e = .KeyReplayPrevented ∨
        ∃ gap, e = .KeyReplayMaybePrevented gap) := by
  cases e <;> simp [Error.connection_close]

/-- Claim C4: the conversion from a decrypt error (ReplaySignal) to a Fault
maps `ReplayDefinitelyDetected` to `KeyReplayPrevented`, maps
`ReplayPotentiallyDetected {gap}` to `KeyReplayMaybePrevented {gap}` with the
gap preserved exactly for every gap, and maps `InvalidTag` to `Decrypt`. -/
theorem ofDecrypt_spec :
    Error.ofDecrypt .ReplayDefinitelyDetected = .KeyReplayPrevented ∧
      (∀ gap, Error.ofDecrypt (.ReplayPotentiallyDetected gap) =
        .KeyReplayMaybePrevented gap) ∧
      Error.ofDecrypt .InvalidTag = .Decrypt :=
  ⟨rfl, fun _ => rfl, rfl⟩

/-- Claim C5: for every Fault on which `connection_close` yields a signal, the
code category is determined by the variant alone (the mapper takes no
transport-shape input): the five protocol-violation variants map to
PROTOCOL_VIOLATION, `MaxDataExceeded` to FLOW_CONTROL_ERROR, `InvalidFin` and
`TruncatedTransport` to FINAL_SIZE_ERROR, `OutOfOrder` to STREAM_STATE_ERROR,
`OutOfRange` to STREAM_LIMIT_ERROR, and `ApplicationError {code}` to the
application code unchanged, for every code. -/
theorem connection_close_categories :
    Error.Decode.connection_close = some (.transport .PROTOCOL_VIOLATION) ∧
      Error.Decrypt.connection_close = some (.transport .PROTOCOL_VIOLATION) ∧
      Error.Duplicate.connection_close =
        some (.transport .PROTOCOL_VIOLATION) ∧
      (∀ a b, (Error.StreamMismatch a b).connection_close =
        some (.transport .PROTOCOL_VIOLATION)) ∧
      Error.UnexpectedRetransmission.connection_close =
        some (.transport .PROTOCOL_VIOLATION) ∧
      Error.MaxDataExceeded.connection_close =
        some (.transport .FLOW_CONTROL_ERROR) ∧
      Error.InvalidFin.connection_close =
        some (.transport .FINAL_SIZE_ERROR) ∧
      Error.TruncatedTransport.connection_close =
        some (.transport .FINAL_SIZE_ERROR) ∧
      (∀ a b, (Error.OutOfOrder a b).connection_close =
        some (.transport .STREAM_STATE_ERROR)) ∧
      Error.OutOfRange.connection_close =
        some (.transport .STREAM_LIMIT_ERROR) ∧
      (∀ code, (Error.ApplicationError code).connection_close =
        some (.application code)) :=
  ⟨rfl, rfl, rfl, fun _ _ => rfl, rfl, rfl, rfl, rfl, fun _ _ => rfl, rfl,
    fun _ => rfl⟩

/-- Claim C6: the io-ErrorKind adapter is total, produces the stated category
for every variant, and its output is always one of the six mapped
categories. -/
theorem errorKind_spec :
    (Error.Decode.errorKind = .InvalidData ∧
      Error.Decrypt.errorKind = .InvalidData ∧
      Error.Duplicate.errorKind = .InvalidData ∧
      (∀ a b, (Error.StreamMismatch a b).errorKind = .InvalidData) ∧
      Error.InvalidFin.errorKind = .InvalidData ∧
      (∀ a b, (Error.OutOfOrder a b).errorKind = .InvalidData) ∧
      Error.UnexpectedRetransmission.errorKind = .InvalidData ∧
      Error.MaxDataExceeded.errorKind = .ConnectionAborted ∧
      Error.OutOfRange.errorKind = .ConnectionAborted ∧
      Error.TruncatedTransport.errorKind = .UnexpectedEof ∧
      Error.IdleTimeout.errorKind = .TimedOut ∧
      Error.KeyReplayPrevented.errorKind = .PermissionDenied ∧
      (∀ gap,
        (Error.KeyReplayMaybePrevented gap).errorKind = .PermissionDenied) ∧
      (∀ code, (Error.ApplicationError code).errorKind = .ConnectionReset)) ∧
    ∀ e : Error,
      e.errorKind = .InvalidData ∨ e.errorKind = .ConnectionAborted ∨
        e.errorKind = .UnexpectedEof ∨ e.errorKind = .TimedOut ∨
        e.errorKind = .PermissionDenied ∨ e.errorKind = .ConnectionReset := by
  refine ⟨⟨rfl, rfl, rfl, fun _ _ => rfl, rfl, fun _ _ => rfl, rfl, rfl, rfl,
    rfl, rfl, rfl, fun _ => rfl, fun _ => rfl⟩, ?_⟩
  intro e
  cases e <;> simp [Error.errorKind]

/-- Claim C7: for every Fault value, wrapping it via the generic-error
constructor and then extracting the wrapped cause yields the original
Fault. -/
theorem intoIoError_roundtrip :
    ∀ e : Error, (e.intoIoError).getCause = some e :=
  fun _ => rfl

/-- Claim C8: `Suite` is a zero-field stateless descriptor (any two values are
equal), the nine key types it binds to the encryption levels are pairwise
distinct (body keys per level, header keys per level, and body keys never
coincide with header keys), and the binding covers every encryption level. -/
theorem suite_registry_distinct_keys :
    (∀ a b : Crypto.Suite, a = b) ∧
      (Crypto.EncryptionLevel.all.map Crypto.Suite.keyFor ++
        Crypto.EncryptionLevel.all.filterMap Crypto.Suite.headerKeyFor).Nodup ∧
      (∀ l : Crypto.EncryptionLevel, l ∈ Crypto.EncryptionLevel.all) := by
  refine ⟨fun a b => rfl, ?_, ?_⟩
  · decide
  · intro l
    cases l <;> decide

/-- Claim C9: every Fault for which `connection_close` yields none is fatal on
every transport shape. -/
theorem silent_close_is_fatal (e : Error) (f : TransportFeatures)
    (h : e.connection_close = none) : e.is_fatal f = true := by
  cases e <;> simp_all [Error.connection_close, Error.is_fatal]

/-- Witness for C9: at Fault `IdleTimeout` and a datagram-shaped transport. -/
theorem silent_close_is_fatal_witness :
    Error.IdleTimeout.connection_close = none ∧
      Error.IdleTimeout.is_fatal (TransportFeatures.mk false) = true :=
  ⟨rfl,
    silent_close_is_fatal Error.IdleTimeout (TransportFeatures.mk false) rfl⟩

/-- Claim C10: the conversion from a buffer-layer error maps `OutOfRange` to
Fault `OutOfRange`, `InvalidFin` to Fault `InvalidFin`, and is the identity on
an embedded reader error. -/
theorem ofBuffer_spec :
    Error.ofBuffer .OutOfRange = .OutOfRange ∧
      Error.ofBuffer .InvalidFin = .InvalidFin ∧
      ∀ e : Error, Error.ofBuffer (.ReaderError e) = e :=
  ⟨rfl, rfl, fun _ => rfl⟩

end S2nQuic
